import Mathlib

/-
  Verification development for the exa-py / metaphor-python client library.

  The repository snapshot under verification contains only documentation
  (README, QUICKSTART, changelogs, Sphinx-generated API reference, examples);
  the Python implementation files (metaphor_python/api.py, exa_py/api.py,
  exa_py/exceptions.py, the OpenAI wrapper) are absent.  Every definition
  below is therefore a shallow model of the missing code, built from the
  specification and from the repository's own documentation, as flagged in
  each doc comment.
-/

set_option autoImplicit false

namespace ExaPy

/-- Modelled from the spec: the JSON-ish value universe used for option
values and payload values (string, integer, boolean, list).  The Python
source (absent from the snapshot) passes plain Python values. -/
inductive Value where
  | vstr : String → Value
  | vint : Int → Value
  | vbool : Bool → Value
  | vlist : List Value → Value

/-- Modelled from the spec: expected option types of the reference schema
(`string, integer, boolean, list-of-string`), as used by the documented
SEARCH_OPTIONS_TYPES / FIND_SIMILAR_OPTIONS_TYPES tables. -/
inductive OptionType where
  | tstr : OptionType
  | tint : OptionType
  | tbool : OptionType
  | tlistStr : OptionType
deriving DecidableEq

/-- Whether a value is a string (used for element-wise list checking). -/
def Value.isStr : Value → Bool
  | .vstr _ => true
  | _ => false

/-- Modelled from the spec: runtime type check of a value against a declared
option type; collection values are checked element-wise. -/
def Value.typeMatches : Value → OptionType → Bool
  | .vstr _, .tstr => true
  | .vint _, .tint => true
  | .vbool _, .tbool => true
  | .vlist vs, .tlistStr => vs.all Value.isStr
  | _, _ => false

/-- Python str.title on a single alphanumeric component: capitalize the
first character, lowercase the rest. -/
def titleWord : List Char → List Char
  | [] => []
  | c :: cs => c.toUpper :: cs.map Char.toLower

/-- Split a character list on underscores (Python str.split on the
underscore character). -/
def splitUnderscore : List Char → List (List Char)
  | [] => [[]]
  | c :: cs =>
    match splitUnderscore cs with
    | [] => [[]]
    | w :: ws => if c = '_' then [] :: w :: ws else (c :: w) :: ws

/-- Modelled from the spec: metaphor_python.api.snake_to_camel (the
implementation file is absent).  Splits on underscores, keeps the first
component, title-cases the remaining components and concatenates. -/
def snakeToCamelChars (s : List Char) : List Char :=
  match splitUnderscore s with
  | [] => []
  | w :: ws => w ++ (ws.map titleWord).flatten

/-- Tail of the camelCase-to-snake_case conversion: every uppercase
character is replaced by an underscore and its lowercase form; every other
character is lowercased. -/
def camelToSnakeAux : List Char → List Char
  | [] => []
  | c :: cs =>
    (if c.isUpper then ['_', c.toLower] else [c.toLower]) ++ camelToSnakeAux cs

/-- Modelled from the spec: metaphor_python.api.camel_to_snake (the
implementation file is absent).  Inserts an underscore before each
uppercase character that is not at the start, then lowercases. -/
def camelToSnakeChars : List Char → List Char
  | [] => []
  | c :: cs => c.toLower :: camelToSnakeAux cs

/-- Convert a snake_case string to camelCase. -/
def snake_to_camel (s : String) : String := ⟨snakeToCamelChars s.data⟩

/-- Convert a camelCase string to snake_case. -/
def camel_to_snake (s : String) : String := ⟨camelToSnakeChars s.data⟩

/-- Modelled from the spec: metaphor_python.api.to_camel_case — rewrite
every key of a dictionary from snake_case to camelCase. -/
def to_camel_case (d : List (String × Value)) : List (String × Value) :=
  d.map fun kv => (snake_to_camel kv.1, kv.2)

/-- Modelled from the spec: metaphor_python.api.to_snake_case — rewrite
every key of a dictionary from camelCase to snake_case. -/
def to_snake_case (d : List (String × Value)) : List (String × Value) :=
  d.map fun kv => (camel_to_snake kv.1, kv.2)

/-- The declared option vocabulary: the union of the documented
SEARCH_OPTIONS_TYPES and FIND_SIMILAR_OPTIONS_TYPES key sets (README
reference section, Sphinx API reference, and the include_urls/exclude_urls
implementation notes). -/
def OPTION_VOCABULARY : List String :=
  ["num_results", "include_domains", "exclude_domains",
   "include_urls", "exclude_urls",
   "start_crawl_date", "end_crawl_date",
   "start_published_date", "end_published_date",
   "use_autoprompt", "type", "exclude_source_domain"]

/-- Modelled from the spec: the custom exception hierarchy documented in the
changelog (exa_py/exceptions.py is absent from the snapshot).  One
constructor per failure category, each carrying the documented payload:
rate-limit errors a retry-after hint, timeout errors the configured
timeout, the catch-all API error the status code and the server-provided
message / request id.  Validation errors cover bad caller input. -/
inductive ExaError where
  | validationError : String → ExaError
  | authenticationError : ExaError
  | rateLimitError : Option Nat → ExaError
  | notFoundError : ExaError
  | serverError : Nat → ExaError
  | timeoutError : Nat → ExaError
  | networkError : ExaError
  | apiError : Nat → String → Option String → ExaError
deriving DecidableEq

/-- Modelled from the spec: the SEARCH_OPTIONS_TYPES reference schema
(option name → declared type) as documented in the README reference
section and the include_urls/exclude_urls implementation notes. -/
def SEARCH_OPTIONS_TYPES : List (String × OptionType) :=
  [("num_results", .tint),
   ("include_domains", .tlistStr), ("exclude_domains", .tlistStr),
   ("include_urls", .tlistStr), ("exclude_urls", .tlistStr),
   ("start_crawl_date", .tstr), ("end_crawl_date", .tstr),
   ("start_published_date", .tstr), ("end_published_date", .tstr),
   ("use_autoprompt", .tbool), ("type", .tstr)]

/-- Modelled from the spec: the FIND_SIMILAR_OPTIONS_TYPES reference
schema as documented in the README reference section, the Sphinx API
reference, and the include_urls/exclude_urls implementation notes. -/
def FIND_SIMILAR_OPTIONS_TYPES : List (String × OptionType) :=
  [("num_results", .tint),
   ("include_domains", .tlistStr), ("exclude_domains", .tlistStr),
   ("include_urls", .tlistStr), ("exclude_urls", .tlistStr),
   ("start_crawl_date", .tstr), ("end_crawl_date", .tstr),
   ("start_published_date", .tstr), ("end_published_date", .tstr),
   ("exclude_source_domain", .tbool)]

/-- A single supplied option is acceptable when its name is declared in the
schema and its value matches the declared type. -/
def optionOk (schema : List (String × OptionType)) (kv : String × Value) : Bool :=
  match schema.lookup kv.1 with
  | none => false
  | some t => kv.2.typeMatches t

/-- Modelled from the spec: generic option validation against a reference
schema — reject any option whose name is absent from the schema or whose
value does not match its declared type; valid input passes through
unchanged.  Mutually-exclusive-filter cross-checks are deliberately NOT
part of this validator: the repository's own documentation of the URL
filters states that they "can be combined with existing domain filters"
and exemplifies combining include- and exclude-URL patterns in one call. -/
def validate_options (schema : List (String × OptionType))
    (options : List (String × Value)) : Except ExaError (List (String × Value)) :=
  match options.find? (fun kv => !(optionOk schema kv)) with
  | some kv => .error (.validationError ("Invalid option or option type: " ++ kv.1))
  | none => .ok options

/-- Modelled from the spec: metaphor_python.api.validate_search_options. -/
def validate_search_options (options : List (String × Value)) :
    Except ExaError (List (String × Value)) :=
  validate_options SEARCH_OPTIONS_TYPES options

/-- Modelled from the spec: metaphor_python.api.validate_find_similar_options. -/
def validate_find_similar_options (options : List (String × Value)) :
    Except ExaError (List (String × Value)) :=
  validate_options FIND_SIMILAR_OPTIONS_TYPES options

/-- The URL-pattern filter keys. -/
def urlFilterKeys : List String := ["include_urls", "exclude_urls"]

/-- The domain filter keys. -/
def domainFilterKeys : List String := ["include_domains", "exclude_domains"]

/-- Written from the spec's words (section 4.1), for comparison with the
documented behavior: the cross-field rule claiming that URL-pattern
filters and domain filters cannot both be set, and that include- and
exclude-pattern filters of the same kind cannot both be set. -/
def specMutualExclusionViolation (options : List (String × Value)) : Bool :=
  (options.any (fun kv => urlFilterKeys.contains kv.1) &&
     options.any (fun kv => domainFilterKeys.contains kv.1)) ||
  (options.any (fun kv => kv.1 = "include_urls") &&
     options.any (fun kv => kv.1 = "exclude_urls")) ||
  (options.any (fun kv => kv.1 = "include_domains") &&
     options.any (fun kv => kv.1 = "exclude_domains"))

/-- Extract the string payload of a string-valued lookup result. -/
def asStr : Option Value → Option String
  | some (.vstr s) => some s
  | _ => none

/-- Modelled from the spec: the typed search-result object
(metaphor_python.api.Result / the exa_py result model; the implementation
files are absent).  Required identifier/URL/title; schema-optional
relevance score, publication date and author; unknown extra payload keys
are preserved on the object (forward compatibility). -/
structure Result where
  title : String
  url : String
  id : String
  score : Option Value
  published_date : Option Value
  author : Option Value
  extra : List (String × Value)

/-- The payload keys the Result shape declares (after key translation). -/
def knownResultKeys : List String :=
  ["title", "url", "id", "score", "published_date", "author"]

/-- Modelled from the spec: the Response Mapper for one search hit — given
the raw JSON record with wire-convention (camelCase) keys, rewrite every
key to the caller-facing snake_case convention and construct the typed
object; schema-optional fields are taken from the payload when present,
unknown extra keys are kept without error. -/
def parseResult (raw : List (String × Value)) : Option Result :=
  let d := to_snake_case raw
  match asStr (d.lookup "title"), asStr (d.lookup "url"), asStr (d.lookup "id") with
  | some t, some u, some i =>
    some { title := t, url := u, id := i,
           score := d.lookup "score",
           published_date := d.lookup "published_date",
           author := d.lookup "author",
           extra := d.filter (fun kv => !(knownResultKeys.contains kv.1)) }
  | _, _, _ => none

/-- Modelled from the spec: metaphor_python.api.DocumentContent. -/
structure DocumentContent where
  id : String
  url : String
  title : String
  extract : String

/-- Modelled from the spec: metaphor_python.api.GetContentsResponse. -/
structure GetContentsResponse where
  contents : List DocumentContent

/-- Modelled from the spec: the Metaphor client
(metaphor_python.api.Metaphor; the implementation file is absent).  The
HTTP exchange of its get_contents endpoint is abstracted as a function
from the requested document ids to the parsed response. -/
structure Metaphor where
  base_url : String
  api_key : String
  fetchContents : List String → GetContentsResponse

/-- Modelled from the spec: metaphor_python.api.SearchResponse — the
ordered results, the optional autoprompt string, and a non-owning,
optional back-reference to the issuing client (defaulted to none by
construction; the search method fills it in afterwards). -/
structure SearchResponse where
  results : List Result
  autoprompt_string : Option String := none
  api : Option Metaphor := none

/-- Modelled from the spec: SearchResponse.get_contents — raises when the
client back-reference is not set, otherwise retrieves the contents of the
documents in the result list through that client. -/
def SearchResponse.get_contents (r : SearchResponse) :
    Except ExaError GetContentsResponse :=
  match r.api with
  | none => .error (.validationError "API client is not set")
  | some client => .ok (client.fetchContents (r.results.map Result.id))

/-- The default retry-eligible status codes: 429 and the 5xx codes
(changelog / QUICKSTART configuration documentation). -/
def defaultRetryOnStatus (status : Nat) : Bool :=
  status == 429 || (500 ≤ status && status ≤ 599)

/-- Modelled from the spec: the client's constructor-level transport
configuration with its documented defaults — request timeout 60,
maximum 3 retry attempts, retry-eligible statuses 429 and 5xx, and the
exponential-backoff multiplier (QUICKSTART documents its default 0.5). -/
structure ClientConfig where
  base_url : String := "https://api.exa.ai"
  api_key : String := ""
  timeout : Nat := 60
  max_retries : Nat := 3
  retry_on_status : Nat → Bool := defaultRetryOnStatus
  backoff_factor : ℚ := 1 / 2

/-- An HTTP error response: status code plus the server-provided
message, request id and retry-after hint. -/
structure HttpFailure where
  status : Nat
  message : String := ""
  request_id : Option String := none
  retry_after : Option Nat := none

/-- The ways a single underlying HTTP exchange can fail: a non-2xx
response, an exceeded timeout, or a connection-level failure. -/
inductive Failure where
  | http : HttpFailure → Failure
  | timedOut : Failure
  | connFailed : Failure

/-- The outcome of a single HTTP attempt. -/
inductive AttemptOutcome (α : Type) where
  | ok : α → AttemptOutcome α
  | fail : Failure → AttemptOutcome α

/-- Modelled from the spec: the typed error raised for a failed HTTP
exchange, by failure category — 401/403 authentication, 429 rate limit
(with retry-after hint), 404 not found, 5xx server error, timeout (with
the configured timeout value), connection-level network error, and a
catch-all API error carrying status code, message and request id. -/
def classifyFailure (cfg : ClientConfig) : Failure → ExaError
  | .http f =>
    if f.status = 401 ∨ f.status = 403 then .authenticationError
    else if f.status = 429 then .rateLimitError f.retry_after
    else if f.status = 404 then .notFoundError
    else if 500 ≤ f.status ∧ f.status ≤ 599 then .serverError f.status
    else .apiError f.status f.message f.request_id
  | .timedOut => .timeoutError cfg.timeout
  | .connFailed => .networkError

/-- Whether a failure is eligible for retry: only HTTP statuses in the
configured retry set are (spec 4.3: bounded retry on a configurable set
of status codes). -/
def Failure.retryEligible (cfg : ClientConfig) : Failure → Bool
  | .http f => cfg.retry_on_status f.status
  | _ => false

/-- Modelled from the spec: the retry loop of the transport layer.  The
underlying exchange is abstracted as a function from the attempt index to
its outcome.  On a retry-eligible failure with retries left, wait
`backoff_factor * 2 ^ attempt` and try again; otherwise surface the typed
error of the failure.  Returns the final outcome together with the list
of inserted backoff delays (delay k separates attempt k from k+1). -/
def runAttempts {α : Type} (cfg : ClientConfig)
    (transport : Nat → AttemptOutcome α) (attempt retriesLeft : Nat) :
    Except ExaError α × List ℚ :=
  match transport attempt, retriesLeft with
  | .ok a, _ => (.ok a, [])
  | .fail f, 0 => (.error (classifyFailure cfg f), [])
  | .fail f, rl + 1 =>
    if f.retryEligible cfg then
      let r := runAttempts cfg transport (attempt + 1) rl
      (r.1, cfg.backoff_factor * 2 ^ attempt :: r.2)
    else (.error (classifyFailure cfg f), [])

/-- Modelled from the spec: one full transport-layer request — attempt 0
with up to `max_retries` retries. -/
def request {α : Type} (cfg : ClientConfig)
    (transport : Nat → AttemptOutcome α) : Except ExaError α × List ℚ :=
  runAttempts cfg transport 0 cfg.max_retries

/-- Modelled from the spec: one full endpoint call — option validation
first, then (only when validation passes) the transport exchange with its
retry loop.  Returns the outcome, the number of HTTP attempts issued, and
the inserted backoff delays: a validation failure is raised before any
network call (zero attempts) and is never retried (no delays). -/
def endpointCall {α : Type} (cfg : ClientConfig)
    (schema : List (String × OptionType)) (options : List (String × Value))
    (transport : Nat → AttemptOutcome α) :
    Except ExaError α × Nat × List ℚ :=
  match validate_options schema options with
  | .error e => (.error e, 0, [])
  | .ok _ =>
    let r := request cfg transport
    (r.1, r.2.length + 1, r.2)

/-- A message of the chat-completion conversation. -/
inductive Message where
  | system : String → Message
  | user : String → Message
  | assistant : String → Message
  | tool : String → Message

/-- A tool invocation requested by the model: the tool's name and the
extracted query argument. -/
structure ToolCall where
  name : String
  query : String

/-- Modelled from the spec: the third-party chat-completion response — the
generated content, an optional tool invocation requested by the model,
and the attribute the shim attaches when it performed a search. -/
structure ChatResponse where
  content : String
  tool_call : Option ToolCall := none
  exa_result : Option SearchResponse := none

/-- The name of the web-search tool the shim registers with the model. -/
def EXA_SEARCH_TOOL_NAME : String := "exa_websearch"

/-- The tool-result message fed back into the conversation for a search
response. -/
def renderSearchResults (sr : SearchResponse) : String :=
  String.intercalate "; " (sr.results.map (fun r => r.title ++ " " ++ r.url))

/-- Modelled from the spec: the chat-completion integration shim
(exa_py/api.py OpenAI wrapper; the implementation file is absent).  The
underlying completion call is abstracted as a function from the
conversation to the model's response, the search stack of 4.2-4.4 as a
function from the query to the search response.  When the model's
response carries a web-search tool invocation, perform one search with
its query, append the tool-result message, re-invoke the completion once
and attach the search results as the exa_result attribute; otherwise
return the original response unmodified.  Also returns the list of search
queries issued and the number of completion invocations, for the
exactly-once properties. -/
def wrap_create (complete : List Message → ChatResponse)
    (search : String → SearchResponse) (messages : List Message) :
    ChatResponse × List String × Nat :=
  let r := complete messages
  match r.tool_call with
  | some tc =>
    if tc.name = EXA_SEARCH_TOOL_NAME then
      let sr := search tc.query
      let r2 := complete (messages ++ [Message.tool (renderSearchResults sr)])
      ({ r2 with exa_result := some sr }, [tc.query], 2)
    else (r, [], 1)
  | none => (r, [], 1)

/-- Concrete search options combining a URL-pattern filter with a domain
filter, exactly as the repository's documentation exemplifies. -/
def c2OptionsSearch : List (String × Value) :=
  [("include_urls", .vlist [.vstr "https://arxiv.org/*"]),
   ("include_domains", .vlist [.vstr "techcrunch.com"])]

/-- Concrete find-similar options combining an include-URL-pattern filter
with an exclude-URL-pattern filter, exactly as the repository's
documentation exemplifies. -/
def c2OptionsFindSimilar : List (String × Value) :=
  [("include_urls", .vlist [.vstr "https://trusted-site.com/*"]),
   ("exclude_urls", .vlist [.vstr "https://untrusted-site.com/*"])]

/-- Concrete raw payload for the mapper witness: required fields, one
optional field in wire casing, one unknown forward-compatibility key. -/
def c1RawPayload : List (String × Value) :=
  [("title", .vstr "A"), ("url", .vstr "https://e.com"), ("id", .vstr "x1"),
   ("publishedDate", .vstr "2023-06-12"), ("brandNewField", .vstr "z")]

/-- A concrete transport for the retry witness: two retry-eligible server
failures, then success. -/
def c4Transport : Nat → AttemptOutcome String
  | 0 => .fail (.http { status := 503 })
  | 1 => .fail (.http { status := 500 })
  | _ => .ok "done"

/-- The failures of the retry witness transport. -/
def c4Failures : Nat → Failure
  | 0 => .http { status := 503 }
  | _ => .http { status := 500 }

/-- Concrete completion function for the shim witness: the first call
requests a web search for the user's question, the follow-up call (which
sees the appended tool-result message) answers without tools. -/
def c8Complete : List Message → ChatResponse := fun ms =>
  match ms with
  | [Message.user q] =>
    { content := "", tool_call := some { name := EXA_SEARCH_TOOL_NAME, query := q } }
  | _ => { content := "final answer" }

/-- Concrete search function for the shim witness. -/
def c8Search : String → SearchResponse := fun q =>
  { results := [{ title := q, url := "https://e.com", id := "1", score := none,
                  published_date := none, author := none, extra := [] }] }

/-- Concrete completion function for the shim witness whose response
carries a tool call that is not the web-search tool. -/
def c8CompleteOther : List Message → ChatResponse := fun _ =>
  { content := "untouched", tool_call := some { name := "calculator", query := "2+2" } }

/-- Helper: validation succeeds and passes the input through unchanged when
every supplied option is acceptable. -/
theorem validate_ok_of_all (schema : List (String × OptionType))
    (options : List (String × Value))
    (h : ∀ kv ∈ options, optionOk schema kv = true) :
    validate_options schema options = .ok options := by
  have hfind : options.find? (fun kv => !(optionOk schema kv)) = none := by
    rw [List.find?_eq_none]
    intro kv hkv
    simp [h kv hkv]
  simp [validate_options, hfind]

/-- Helper: validation raises a validation error as soon as some supplied
option is not acceptable, regardless of the other options. -/
theorem validate_error_of_bad (schema : List (String × OptionType))
    (options : List (String × Value)) (kv : String × Value)
    (hmem : kv ∈ options) (hbad : optionOk schema kv = false) :
    ∃ m, validate_options schema options = .error (.validationError m) := by
  have hex : ∃ x ∈ options, (!(optionOk schema x)) = true := ⟨kv, hmem, by simp [hbad]⟩
  have hsome : (options.find? (fun kv => !(optionOk schema kv))).isSome := by
    rw [List.find?_isSome]
    simpa using hex
  obtain ⟨y, hy⟩ := Option.isSome_iff_exists.mp hsome
  refine ⟨"Invalid option or option type: " ++ y.1, ?_⟩
  simp [validate_options, hy]

/-- C5: for every key in the declared option vocabulary, translating it from
the caller-facing snake_case convention to the wire camelCase convention
and back yields the original key unchanged. -/
theorem round_trip_on_option_vocabulary :
    ∀ k ∈ OPTION_VOCABULARY, camel_to_snake (snake_to_camel k) = k := by decide

/-- Witness for the round-trip property at a concrete vocabulary key. -/
theorem round_trip_on_option_vocabulary_witness :
    "num_results" ∈ OPTION_VOCABULARY ∧
      camel_to_snake (snake_to_camel "num_results") = "num_results" :=
  ⟨by decide, round_trip_on_option_vocabulary "num_results" (by decide)⟩

/-- C3: option validation against a reference schema passes (returning the
input unchanged, its only effect) whenever every supplied option name is
declared in the schema with a matching value type; it raises a validation
error for any option name absent from the schema, regardless of the other
options supplied, and for any value not matching its declared type. -/
theorem validate_options_correct (schema : List (String × OptionType))
    (options : List (String × Value)) :
    ((∀ kv ∈ options, ∃ t, schema.lookup kv.1 = some t ∧ kv.2.typeMatches t = true) →
        validate_options schema options = .ok options) ∧
    (∀ kv ∈ options, schema.lookup kv.1 = none →
        ∃ m, validate_options schema options = .error (.validationError m)) ∧
    (∀ kv ∈ options, ∀ t, schema.lookup kv.1 = some t → kv.2.typeMatches t = false →
        ∃ m, validate_options schema options = .error (.validationError m)) := by
  refine ⟨?_, ?_, ?_⟩
  · intro h
    refine validate_ok_of_all schema options (fun kv hkv => ?_)
    obtain ⟨t, ht, hm⟩ := h kv hkv
    simp [optionOk, ht, hm]
  · intro kv hkv hnone
    exact validate_error_of_bad schema options kv hkv (by simp [optionOk, hnone])
  · intro kv hkv t ht hm
    exact validate_error_of_bad schema options kv hkv (by simp [optionOk, ht, hm])

/-- Witness for option validation at concrete inputs: a valid option map
passes through unchanged, and an unknown option name raises. -/
theorem validate_options_correct_witness :
    validate_options SEARCH_OPTIONS_TYPES [("num_results", Value.vint 5)] =
      .ok [("num_results", Value.vint 5)] ∧
    ∃ m, validate_options SEARCH_OPTIONS_TYPES [("bogus_option", Value.vint 5)] =
      .error (.validationError m) := by
  constructor
  · refine (validate_options_correct SEARCH_OPTIONS_TYPES
      [("num_results", Value.vint 5)]).1 ?_
    intro kv hkv
    rw [List.mem_singleton] at hkv
    subst hkv
    exact ⟨.tint, rfl, rfl⟩
  · refine (validate_options_correct SEARCH_OPTIONS_TYPES
      [("bogus_option", Value.vint 5)]).2.1 ("bogus_option", Value.vint 5)
      (List.mem_singleton.mpr rfl) rfl

/-- C2 counterexample: on inputs that set both a URL-pattern filter and a
domain filter (resp. both an include- and an exclude-pattern filter of
the same kind) — inputs the spec's cross-field rule (modelled verbatim as
specMutualExclusionViolation) flags — validation as the repository
documents it succeeds instead of raising. -/
theorem c2_filters_combine_counterexample :
    (specMutualExclusionViolation c2OptionsSearch = true ∧
       validate_search_options c2OptionsSearch = .ok c2OptionsSearch) ∧
    (specMutualExclusionViolation c2OptionsFindSimilar = true ∧
       validate_find_similar_options c2OptionsFindSimilar = .ok c2OptionsFindSimilar) :=
  ⟨⟨rfl, rfl⟩, ⟨rfl, rfl⟩⟩

/-- C2 amended: combining URL-pattern filters with domain filters, and
combining include- with exclude-URL-pattern filters, passes validation
(the repository documents these combinations as supported); validation
raises only for unknown option names or mismatched value types. -/
theorem url_and_domain_filters_combine (us ds : List String) :
    validate_search_options
        [("include_urls", .vlist (us.map .vstr)),
         ("include_domains", .vlist (ds.map .vstr))] =
      .ok [("include_urls", .vlist (us.map .vstr)),
           ("include_domains", .vlist (ds.map .vstr))] ∧
    validate_find_similar_options
        [("include_urls", .vlist (us.map .vstr)),
         ("exclude_urls", .vlist (ds.map .vstr))] =
      .ok [("include_urls", .vlist (us.map .vstr)),
           ("exclude_urls", .vlist (ds.map .vstr))] := by
  have hlist : ∀ xs : List String, Value.typeMatches (.vlist (xs.map .vstr)) .tlistStr = true := by
    intro xs
    simp only [Value.typeMatches, List.all_eq_true]
    intro v hv
    obtain ⟨s, _, rfl⟩ := List.mem_map.mp hv
    rfl
  constructor
  · refine validate_ok_of_all _ _ (fun kv hkv => ?_)
    rcases List.mem_pair.mp hkv with h | h <;> subst h
    · exact hlist us
    · exact hlist ds
  · refine validate_ok_of_all _ _ (fun kv hkv => ?_)
    rcases List.mem_pair.mp hkv with h | h <;> subst h
    · exact hlist us
    · exact hlist ds

/-- C1: on a successful mapping (the required identifier/URL/title are
present in the payload), the Response Mapper surfaces each schema-optional
field on the typed object exactly when the corresponding key is present in
the (key-translated) raw payload — no fabrication, no silent drops — and
every unknown extra key of the payload is preserved on the object rather
than rejected. -/
theorem parseResult_surfaces_optionals (raw : List (String × Value)) (t u i : String)
    (ht : asStr ((to_snake_case raw).lookup "title") = some t)
    (hu : asStr ((to_snake_case raw).lookup "url") = some u)
    (hi : asStr ((to_snake_case raw).lookup "id") = some i) :
    ∃ r, parseResult raw = some r ∧
      r.title = t ∧ r.url = u ∧ r.id = i ∧
      (∀ v, r.score = some v ↔ (to_snake_case raw).lookup "score" = some v) ∧
      (∀ v, r.published_date = some v ↔
          (to_snake_case raw).lookup "published_date" = some v) ∧
      (∀ v, r.author = some v ↔ (to_snake_case raw).lookup "author" = some v) ∧
      (∀ kv, kv ∈ r.extra ↔
          (kv ∈ to_snake_case raw ∧ kv.1 ∉ knownResultKeys)) := by
  refine ⟨{ title := t, url := u, id := i,
            score := (to_snake_case raw).lookup "score",
            published_date := (to_snake_case raw).lookup "published_date",
            author := (to_snake_case raw).lookup "author",
            extra := (to_snake_case raw).filter
              (fun kv => !(knownResultKeys.contains kv.1)) }, ?_, rfl, rfl, rfl,
          fun v => Iff.rfl, fun v => Iff.rfl, fun v => Iff.rfl, fun kv => ?_⟩
  · simp only [parseResult, ht, hu, hi]
  · rw [List.mem_filter]
    simp [List.elem_iff]

/-- Witness for the mapper property at a concrete payload: the optional
publication date is surfaced, the absent score is not fabricated, and the
unknown extra key is preserved. -/
theorem parseResult_surfaces_optionals_witness :
    ∃ r, parseResult c1RawPayload = some r ∧ r.title = "A" ∧
      (∀ v, r.published_date = some v ↔
          (to_snake_case c1RawPayload).lookup "published_date" = some v) ∧
      (∀ kv, kv ∈ r.extra ↔
          (kv ∈ to_snake_case c1RawPayload ∧ kv.1 ∉ knownResultKeys)) := by
  obtain ⟨r, h1, h2, -, -, -, h6, -, h8⟩ :=
    parseResult_surfaces_optionals c1RawPayload "A" "https://e.com" "x1" rfl rfl rfl
  exact ⟨r, h1, h2, h6, h8⟩

/-- C10: the convenience get_contents on a search response raises exactly
when the client back-reference is not set; when it is set, it retrieves
the contents of the documents in the result list through that client; and
constructing a search response never requires the back-reference (it
defaults to none). -/
theorem searchResponse_get_contents_spec (results : List Result) (auto : Option String) :
    (({ results := results, autoprompt_string := auto } : SearchResponse).api = none) ∧
    (SearchResponse.get_contents
        { results := results, autoprompt_string := auto, api := none } =
      .error (.validationError "API client is not set")) ∧
    (∀ c : Metaphor,
        SearchResponse.get_contents
            { results := results, autoprompt_string := auto, api := some c } =
          .ok (c.fetchContents (results.map Result.id))) :=
  ⟨rfl, rfl, fun _ => rfl⟩

/-- C6: every failed HTTP exchange is mapped to the distinct typed error of
its failure category — 401/403 to the authentication error, 429 to the
rate-limit error carrying the retry-after hint, 404 to the not-found
error, 5xx to the server error, a timeout to the timeout error carrying
the configured timeout, a connection-level failure to the network error,
and any other non-2xx response to the catch-all API error carrying the
status code and the server-provided message and request id; the eight
error shapes are pairwise distinct. -/
theorem classifyFailure_taxonomy (cfg : ClientConfig) (f : HttpFailure) :
    ((f.status = 401 ∨ f.status = 403) →
        classifyFailure cfg (.http f) = .authenticationError) ∧
    (f.status = 429 → classifyFailure cfg (.http f) = .rateLimitError f.retry_after) ∧
    (f.status = 404 → classifyFailure cfg (.http f) = .notFoundError) ∧
    (500 ≤ f.status → f.status ≤ 599 →
        classifyFailure cfg (.http f) = .serverError f.status) ∧
    (classifyFailure cfg .timedOut = .timeoutError cfg.timeout) ∧
    (classifyFailure cfg .connFailed = .networkError) ∧
    (f.status ≠ 401 → f.status ≠ 403 → f.status ≠ 429 → f.status ≠ 404 →
        ¬(500 ≤ f.status ∧ f.status ≤ 599) →
        classifyFailure cfg (.http f) = .apiError f.status f.message f.request_id) ∧
    List.Pairwise (fun a b => a ≠ b)
      [ExaError.validationError "m", ExaError.authenticationError,
       ExaError.rateLimitError f.retry_after, ExaError.notFoundError,
       ExaError.serverError f.status, ExaError.timeoutError cfg.timeout,
       ExaError.networkError, ExaError.apiError f.status f.message f.request_id] := by
  refine ⟨?_, ?_, ?_, ?_, rfl, rfl, ?_, ?_⟩
  · intro h
    simp [classifyFailure, h]
  · intro h
    simp [classifyFailure, h]
  · intro h
    simp [classifyFailure, h]
  · intro h1 h2
    have hne : ¬(f.status = 401 ∨ f.status = 403) := by omega
    have hne2 : f.status ≠ 429 := by omega
    have hne3 : f.status ≠ 404 := by omega
    simp [classifyFailure, hne, hne2, hne3, h1, h2]
  · intro h1 h2 h3 h4 h5
    have hne : ¬(f.status = 401 ∨ f.status = 403) := by omega
    simp [classifyFailure, hne, h3, h4, h5]
  · simp

/-- Witness for the failure taxonomy at concrete failures: a 403 maps to
the authentication error and a timeout to the timeout error carrying the
default 60-unit timeout. -/
theorem classifyFailure_taxonomy_witness :
    classifyFailure {} (.http { status := 403 }) = .authenticationError ∧
    classifyFailure {} .timedOut = .timeoutError 60 :=
  ⟨(classifyFailure_taxonomy {} { status := 403 }).1 (Or.inr rfl),
   (classifyFailure_taxonomy {} { status := 403 }).2.2.2.2.1⟩

/-- C9: a client constructed without explicit transport settings uses the
documented defaults — timeout 60, maximum 3 retry attempts, and the
retry-eligible status set consisting of 429 and the 5xx codes — and each
of these settings is overridable at construction. -/
theorem default_client_config :
    (({} : ClientConfig).timeout = 60) ∧
    (({} : ClientConfig).max_retries = 3) ∧
    (∀ s, ({} : ClientConfig).retry_on_status s = true ↔
        (s = 429 ∨ (500 ≤ s ∧ s ≤ 599))) ∧
    (∀ (t m : Nat) (rs : Nat → Bool),
      (({ timeout := t } : ClientConfig).max_retries = 3 ∧
         ({ timeout := t } : ClientConfig).timeout = t) ∧
      (({ max_retries := m } : ClientConfig).timeout = 60 ∧
         ({ max_retries := m } : ClientConfig).max_retries = m) ∧
      ({ retry_on_status := rs } : ClientConfig).retry_on_status = rs) := by
  refine ⟨rfl, rfl, ?_, fun t m rs => ⟨⟨rfl, rfl⟩, ⟨rfl, rfl⟩, rfl⟩⟩
  intro s
  simp only [ClientConfig.mk, defaultRetryOnStatus, Bool.or_eq_true, Bool.and_eq_true,
    beq_iff_eq, decide_eq_true_eq]

/-- Helper: a successful attempt ends the loop at once. -/
theorem runAttempts_ok_step {α : Type} (cfg : ClientConfig)
    (transport : Nat → AttemptOutcome α) (a : α) (attempt rl : Nat)
    (hok : transport attempt = .ok a) :
    runAttempts cfg transport attempt rl = (.ok a, []) := by
  rw [runAttempts.eq_def, hok]

/-- Helper: with no retries left, a failure surfaces its typed error. -/
theorem runAttempts_exhausted_step {α : Type} (cfg : ClientConfig)
    (transport : Nat → AttemptOutcome α) (f : Failure) (attempt : Nat)
    (hf : transport attempt = .fail f) :
    runAttempts cfg transport attempt 0 = (.error (classifyFailure cfg f), []) := by
  rw [runAttempts.eq_def, hf]

/-- Helper: a retry-eligible failure with retries left inserts one backoff
delay and continues with the next attempt. -/
theorem runAttempts_retry_step {α : Type} (cfg : ClientConfig)
    (transport : Nat → AttemptOutcome α) (f : Failure) (attempt rl : Nat)
    (hf : transport attempt = .fail f) (he : f.retryEligible cfg = true) :
    runAttempts cfg transport attempt (rl + 1) =
      ((runAttempts cfg transport (attempt + 1) rl).1,
       cfg.backoff_factor * 2 ^ attempt :: (runAttempts cfg transport (attempt + 1) rl).2) := by
  rw [runAttempts.eq_def, hf]
  simp only [he, ite_true]

/-- Helper: a retry-ineligible failure surfaces its typed error at once. -/
theorem runAttempts_ineligible_step {α : Type} (cfg : ClientConfig)
    (transport : Nat → AttemptOutcome α) (f : Failure) (attempt rl : Nat)
    (hf : transport attempt = .fail f) (he : f.retryEligible cfg = false) :
    runAttempts cfg transport attempt rl = (.error (classifyFailure cfg f), []) := by
  cases rl with
  | zero => exact runAttempts_exhausted_step cfg transport f attempt hf
  | succ rl =>
    rw [runAttempts.eq_def, hf]
    simp only [he, Bool.false_eq_true, ite_false]

/-- Helper: a run of n retry-eligible failures followed by a success, with
at least n retries left, succeeds and inserts exactly the delays
`backoff_factor * 2 ^ (start + k)` for k < n. -/
theorem runAttempts_ok_run {α : Type} (cfg : ClientConfig)
    (transport : Nat → AttemptOutcome α) (a : α) :
    ∀ (n start rl : Nat),
      (∀ k, k < n → ∃ f, transport (start + k) = .fail f ∧ f.retryEligible cfg = true) →
      transport (start + n) = .ok a → n ≤ rl →
      runAttempts cfg transport start rl =
        (.ok a, (List.range n).map fun k => cfg.backoff_factor * 2 ^ (start + k)) := by
  intro n
  induction n with
  | zero =>
    intro start rl _ hok _
    rw [Nat.add_zero] at hok
    simpa using runAttempts_ok_step cfg transport a start rl hok
  | succ n ih =>
    intro start rl hfail hok hle
    obtain ⟨f, hf, helig⟩ := hfail 0 (Nat.succ_pos n)
    rw [Nat.add_zero] at hf
    obtain ⟨rl, rfl⟩ : ∃ rl2, rl = rl2 + 1 := ⟨rl - 1, by omega⟩
    have htail := ih (start + 1) rl
      (fun k hk => by
        have hmem := hfail (k + 1) (by omega)
        simpa [Nat.add_assoc, Nat.add_comm 1 k] using hmem)
      (by
        have harg : start + 1 + n = start + (n + 1) := by omega
        rw [harg]; exact hok)
      (by omega)
    have hlist : (List.range (n + 1)).map (fun k => cfg.backoff_factor * 2 ^ (start + k)) =
        cfg.backoff_factor * 2 ^ start ::
          (List.range n).map (fun k => cfg.backoff_factor * 2 ^ (start + 1 + k)) := by
      rw [List.range_succ_eq_map, List.map_cons, List.map_map, Nat.add_zero]
      congr 1
      refine List.map_congr_left fun k _ => ?_
      have harg2 : start + (k + 1) = start + 1 + k := by omega
      simp only [Function.comp_apply, Nat.succ_eq_add_one, harg2]
    rw [runAttempts_retry_step cfg transport f start rl hf helig, htail, hlist]

/-- Helper: when every attempt up to the retry ceiling fails with a
retry-eligible failure, the loop exhausts its retries, surfaces the typed
error of the last failure, and has inserted one backoff delay per retry. -/
theorem runAttempts_exhaust_run {α : Type} (cfg : ClientConfig)
    (transport : Nat → AttemptOutcome α) (fs : Nat → Failure) :
    ∀ (rl start : Nat),
      (∀ k, k ≤ rl → transport (start + k) = .fail (fs (start + k))) →
      (∀ k, k ≤ rl → (fs (start + k)).retryEligible cfg = true) →
      runAttempts cfg transport start rl =
        (.error (classifyFailure cfg (fs (start + rl))),
         (List.range rl).map fun k => cfg.backoff_factor * 2 ^ (start + k)) := by
  intro rl
  induction rl with
  | zero =>
    intro start hfail _
    have hf := hfail 0 (Nat.le_refl 0)
    rw [Nat.add_zero] at hf
    simpa using runAttempts_exhausted_step cfg transport (fs start) start hf
  | succ rl ih =>
    intro start hfail helig
    have hf := hfail 0 (Nat.zero_le _)
    rw [Nat.add_zero] at hf
    have he := helig 0 (Nat.zero_le _)
    rw [Nat.add_zero] at he
    have htail := ih (start + 1)
      (fun k hk => by
        have hmem := hfail (k + 1) (by omega)
        simpa [Nat.add_assoc, Nat.add_comm 1 k] using hmem)
      (fun k hk => by
        have hmem := helig (k + 1) (by omega)
        simpa [Nat.add_assoc, Nat.add_comm 1 k] using hmem)
    have hlist : (List.range (rl + 1)).map (fun k => cfg.backoff_factor * 2 ^ (start + k)) =
        cfg.backoff_factor * 2 ^ start ::
          (List.range rl).map (fun k => cfg.backoff_factor * 2 ^ (start + 1 + k)) := by
      rw [List.range_succ_eq_map, List.map_cons, List.map_map, Nat.add_zero]
      congr 1
      refine List.map_congr_left fun k _ => ?_
      have harg2 : start + (k + 1) = start + 1 + k := by omega
      simp only [Function.comp_apply, Nat.succ_eq_add_one, harg2]
    have harg : start + 1 + rl = start + (rl + 1) := by omega
    rw [runAttempts_retry_step cfg transport (fs start) start rl hf he, htail, hlist, harg]

/-- C4: when the underlying exchange fails with a retry-eligible status
exactly N times (N at most the retry ceiling) and then succeeds, the call
ultimately succeeds and the delay inserted between attempt k and attempt
k+1 equals `backoff_factor * 2 ^ k`; when eligible failures exceed the
retry ceiling, the call raises the typed error of the final failure after
exactly one backoff delay per permitted retry. -/
theorem retry_with_backoff_semantics {α : Type} (cfg : ClientConfig)
    (transport : Nat → AttemptOutcome α) (fs : Nat → Failure) (a : α) (N : Nat) :
    ((∀ k, k < N → transport k = .fail (fs k)) →
     (∀ k, k < N → (fs k).retryEligible cfg = true) →
     transport N = .ok a → N ≤ cfg.max_retries →
     request cfg transport =
       (.ok a, (List.range N).map fun k => cfg.backoff_factor * 2 ^ k)) ∧
    ((∀ k, k ≤ cfg.max_retries → transport k = .fail (fs k)) →
     (∀ k, k ≤ cfg.max_retries → (fs k).retryEligible cfg = true) →
     request cfg transport =
       (.error (classifyFailure cfg (fs cfg.max_retries)),
        (List.range cfg.max_retries).map fun k => cfg.backoff_factor * 2 ^ k)) := by
  constructor
  · intro hfail helig hok hle
    have h := runAttempts_ok_run cfg transport a N 0 cfg.max_retries
      (fun k hk => ⟨fs k, by simpa using hfail k hk, by simpa using helig k hk⟩)
      (by simpa using hok) hle
    simpa [request, Nat.zero_add] using h
  · intro hfail helig
    have h := runAttempts_exhaust_run cfg transport fs cfg.max_retries 0
      (fun k hk => by simpa using hfail k hk)
      (fun k hk => by simpa using helig k hk)
    simpa [request, Nat.zero_add] using h

/-- Witness for the retry semantics at a concrete configuration: two
eligible failures then success under the default ceiling of 3 yields
success with delays backoff_factor * 1 and backoff_factor * 2. -/
theorem retry_with_backoff_semantics_witness :
    request {} c4Transport = (.ok "done", [(1 : ℚ) / 2 * 1, 1 / 2 * 2]) := by
  have h := (retry_with_backoff_semantics {} c4Transport c4Failures "done" 2).1
    (fun k hk => by interval_cases k <;> rfl)
    (fun k hk => by interval_cases k <;> rfl)
    rfl (by norm_num)
  rw [h]
  norm_num [List.range_succ]

/-- C7: the error propagation policy of a full endpoint call — a
validation error for malformed caller input is raised before any network
call is issued (zero HTTP attempts) and is never retried (no backoff
delays); a retry-ineligible transport failure propagates immediately
after one attempt with no local recovery; retry-eligible transient
failures are retried locally with backoff up to the configured ceiling,
after which the typed error is surfaced. -/
theorem error_propagation_policy {α : Type} (cfg : ClientConfig)
    (schema : List (String × OptionType)) (options : List (String × Value))
    (transport : Nat → AttemptOutcome α) (fs : Nat → Failure) (a : α) (N : Nat) :
    (∀ e, validate_options schema options = .error e →
        endpointCall cfg schema options transport = (.error e, 0, [])) ∧
    (validate_options schema options = .ok options →
      ((∀ f, transport 0 = .fail f → f.retryEligible cfg = false →
          endpointCall cfg schema options transport =
            (.error (classifyFailure cfg f), 1, [])) ∧
       ((∀ k, k < N → transport k = .fail (fs k)) →
        (∀ k, k < N → (fs k).retryEligible cfg = true) →
        transport N = .ok a → N ≤ cfg.max_retries →
        endpointCall cfg schema options transport =
          (.ok a, N + 1, (List.range N).map fun k => cfg.backoff_factor * 2 ^ k)) ∧
       ((∀ k, k ≤ cfg.max_retries → transport k = .fail (fs k)) →
        (∀ k, k ≤ cfg.max_retries → (fs k).retryEligible cfg = true) →
        endpointCall cfg schema options transport =
          (.error (classifyFailure cfg (fs cfg.max_retries)), cfg.max_retries + 1,
           (List.range cfg.max_retries).map fun k => cfg.backoff_factor * 2 ^ k)))) := by
  constructor
  · intro e he
    simp [endpointCall, he]
  · intro hv
    refine ⟨?_, ?_, ?_⟩
    · intro f hf helig
      have hreq : request cfg transport = (.error (classifyFailure cfg f), []) :=
        runAttempts_ineligible_step cfg transport f 0 cfg.max_retries hf helig
      simp [endpointCall, hv, hreq]
    · intro hfail helig hok hle
      have hreq := runAttempts_ok_run cfg transport a N 0 cfg.max_retries
        (fun k hk => ⟨fs k, by simpa using hfail k hk, by simpa using helig k hk⟩)
        (by simpa using hok) hle
      simp only [Nat.zero_add] at hreq
      simp [endpointCall, hv, request, hreq]
    · intro hfail helig
      have hreq := runAttempts_exhaust_run cfg transport fs cfg.max_retries 0
        (fun k hk => by simpa using hfail k hk)
        (fun k hk => by simpa using helig k hk)
      simp only [Nat.zero_add] at hreq
      simp [endpointCall, hv, request, hreq]

/-- Witness for the propagation policy at concrete inputs: an unknown
option name yields the validation error with zero HTTP attempts, and with
valid options a retry-ineligible 404 propagates after one attempt. -/
theorem error_propagation_policy_witness :
    endpointCall {} SEARCH_OPTIONS_TYPES [("bogus_option", Value.vint 5)]
        (fun _ => AttemptOutcome.ok "x") =
      (.error (.validationError "Invalid option or option type: bogus_option"), 0, []) ∧
    endpointCall {} SEARCH_OPTIONS_TYPES [("num_results", Value.vint 5)]
        (fun _ => (AttemptOutcome.fail (.http { status := 404 }) : AttemptOutcome String)) =
      (.error .notFoundError, 1, []) := by
  constructor
  · exact (error_propagation_policy {} SEARCH_OPTIONS_TYPES
      [("bogus_option", Value.vint 5)] (fun _ => AttemptOutcome.ok "x")
      (fun _ => Failure.connFailed) "x" 0).1 _ rfl
  · exact (((error_propagation_policy {} SEARCH_OPTIONS_TYPES
      [("num_results", Value.vint 5)]
      (fun _ => AttemptOutcome.fail (.http { status := 404 }))
      (fun _ => Failure.connFailed) "x" 0).2 rfl).1
      (.http { status := 404 }) rfl rfl)

/-- C8: the chat-completion shim — when the model's response carries a
web-search tool invocation, the shim performs exactly one search with the
tool's query argument, appends the tool-result message to the
conversation, re-invokes the underlying completion exactly once, and
attaches the search results used to the returned response; when the
model's response carries no such tool call, it returns the original
response unmodified and performs no search. -/
theorem wrap_create_spec (complete : List Message → ChatResponse)
    (search : String → SearchResponse) (messages : List Message) :
    ((complete messages).tool_call = none →
        wrap_create complete search messages = (complete messages, [], 1)) ∧
    (∀ tc, (complete messages).tool_call = some tc → tc.name ≠ EXA_SEARCH_TOOL_NAME →
        wrap_create complete search messages = (complete messages, [], 1)) ∧
    (∀ tc, (complete messages).tool_call = some tc → tc.name = EXA_SEARCH_TOOL_NAME →
        wrap_create complete search messages =
          ({ complete (messages ++ [Message.tool (renderSearchResults (search tc.query))]) with
              exa_result := some (search tc.query) },
           [tc.query], 2)) := by
  refine ⟨?_, ?_, ?_⟩
  · intro h
    simp [wrap_create, h]
  · intro tc h hname
    simp [wrap_create, h, hname]
  · intro tc h hname
    simp [wrap_create, h, hname]

/-- Witness for the shim at concrete conversations: with a web-search tool
call, one search with the model's query, one re-invocation, search
results attached; with a tool call of a different name, the original
response unmodified and no search. -/
theorem wrap_create_spec_witness :
    (wrap_create c8Complete c8Search [Message.user "bats"] =
      ({ content := "final answer", tool_call := none,
         exa_result := some (c8Search "bats") }, ["bats"], 2)) ∧
    (wrap_create c8CompleteOther c8Search [Message.user "bats"] =
      (c8CompleteOther [Message.user "bats"], [], 1)) := by
  constructor
  · have h := (wrap_create_spec c8Complete c8Search [Message.user "bats"]).2.2
      { name := EXA_SEARCH_TOOL_NAME, query := "bats" } rfl rfl
    rw [h]
    rfl
  · exact (wrap_create_spec c8CompleteOther c8Search [Message.user "bats"]).2.1
      { name := "calculator", query := "2+2" } rfl (by decide)

end ExaPy
